import Mathlib

/-!
Verification of the NeptuneAI retrieval subsystem (`src/backend/vector_store.py`
and `src/backend/enhanced_rag_pipeline.py`) against its specification.

The Python code is shallowly embedded: the FAISS flat index becomes a list of
vectors with the operations faiss actually provides for `IndexFlatIP`
(`add` appends; `remove_ids` deletes by sequential position and compacts;
`add_with_ids` is unsupported on flat indexes and raises; `search` returns
exactly `k` (score, index) pairs, padding with index `-1` when fewer than `k`
vectors are stored).  Python list indexing, which wraps negative indices to the
back of the list and raises when out of range, is modelled by `pyGet`.
The sentence-transformer encoder is an external model: operations take the
encoding function as an explicit parameter (in the source it is the fixed
`self.encoder`; L2 normalisation, a deterministic function of the raw
embedding, is folded into that parameter).  Wall-clock timestamps
(`datetime.now()`) are threaded as an explicit `now` argument.
-/

namespace NeptuneAI

/-- Embedding vectors.  The source uses float arrays; every claim below
depends only on which vectors compare higher under the inner product, so
integer coordinates model them exactly. -/
abbrev Vec := List Int

/-- Inner product (`faiss.IndexFlatIP` similarity). -/
def dot (u v : Vec) : Int := (List.zipWith (fun a b => a * b) u v).sum

/-- A metadata value stored in a document's free-form metadata dict. -/
inductive MVal where
  | str : String → MVal
  | int : Int → MVal
deriving Repr, DecidableEq, BEq

/-- A metadata filter value: the Python `search` accepts either a scalar
(equality test) or a list (membership test). -/
inductive FilterVal where
  | one : MVal → FilterVal
  | many : List MVal → FilterVal
deriving Repr, DecidableEq

/-- One record of `ARGOVectorStore.metadata`, as built by `add_document`:
`{id, content, metadata, doc_type, created_at, updated_at}`. -/
structure DocMeta where
  id : String
  content : String
  metadata : List (String × MVal)
  doc_type : String
  created_at : Nat
  updated_at : Nat
deriving Repr, DecidableEq

/-- The in-memory state of `ARGOVectorStore`: the FAISS index contents
(in slot order), the parallel `metadata` list, and the `id_to_metadata`
dict mapping a document id to its slot. -/
structure ARGOVectorStore where
  dimension : Nat
  index : List Vec
  metadata : List DocMeta
  id_to_metadata : List (String × Nat)
deriving Repr, DecidableEq

/-- Python dict assignment `d[k] = v`: overwrite the binding if the key is
present, otherwise append it. -/
def dictInsert (d : List (String × Nat)) (k : String) (v : Nat) :
    List (String × Nat) :=
  if d.any (fun p => p.1 == k) then
    d.map (fun p => if p.1 == k then (p.1, v) else p)
  else d ++ [(k, v)]

/-- `_generate_id`: `hashlib.md5(content.encode()).hexdigest()`.  The claims
depend only on the hash being a deterministic function of the content
(same content, same id) and on the scenario contents not colliding, which
md5 provides for them; it is therefore modelled by an injective tagging of
the content. -/
def generateId (content : String) : String := "md5-" ++ content

/-- `faiss.Index.add` on a flat index: appends the vector at the next slot. -/
def addVec (ix : List Vec) (v : Vec) : List Vec := ix ++ [v]

/-- `faiss.Index.remove_ids(np.array([i]))` on a flat index: ids are the
sequential slot positions, so the vector at position `i` is removed and the
later slots compact down by one, preserving order. -/
def removeIds (ix : List Vec) (i : Nat) : List Vec := ix.eraseIdx i

/-- `faiss.Index.add_with_ids` on `IndexFlatIP`: flat indexes do not support
external ids, so faiss raises (`add_with_ids not implemented for this type of
index`). -/
def addWithIds (_ix : List Vec) (_v : Vec) (_i : Nat) : Except String (List Vec) :=
  Except.error "add_with_ids not implemented for this type of index"

/-- Insert a (score, slot) pair into a list sorted by descending score,
placing it after existing entries of equal score. -/
def insertByScore (p : Int × Nat) : List (Int × Nat) → List (Int × Nat)
  | [] => [p]
  | q :: qs => if q.1 < p.1 then p :: q :: qs else q :: insertByScore p qs

/-- Sort (score, slot) pairs by descending score; equal scores keep slot
order (faiss ties are broken by insertion order per the spec). -/
def sortByScore (l : List (Int × Nat)) : List (Int × Nat) :=
  l.foldl (fun acc p => insertByScore p acc) []

/-- `faiss.Index.search(q, k)` on a flat index: scores every stored vector by
inner product and returns exactly `k` (score, index) pairs, highest first;
when fewer than `k` vectors are stored the tail is padded with index `-1`
(the padded score, `-inf` in faiss, is irrelevant to the code and modelled
as `0`). -/
def searchIndex (ix : List Vec) (q : Vec) (k : Nat) : List (Int × Int) :=
  let scored := ix.enum.map (fun p => (dot q p.2, p.1))
  let ranked := sortByScore scored
  (ranked.take k).map (fun p => (p.1, (p.2 : Int)))
    ++ List.replicate (k - ix.length) ((0 : Int), (-1 : Int))

/-- Python list indexing `xs[i]`: non-negative indices count from the front,
negative indices wrap to `len(xs) + i`, and anything out of range raises
`IndexError` (modelled as `none`). -/
def pyGet {α : Type} (xs : List α) (i : Int) : Option α :=
  if 0 ≤ i then xs.get? i.toNat
  else if (-i).toNat ≤ xs.length then xs.get? (xs.length - (-i).toNat)
  else none

/-- `ARGOVectorStore._matches_filters`: a document passes when its
`doc_type` is among `doc_types` (if that list is given and non-empty — an
empty Python list is falsy and skips the check, which coincides with the
empty conjunction) and every metadata filter key is present with a matching
value (scalar equality, or membership for list-valued filters). -/
def matchesFilters (doc : DocMeta) (doc_types : Option (List String))
    (filters : Option (List (String × FilterVal))) : Bool :=
  let typeOk := match doc_types with
    | none => true
    | some dts => dts.isEmpty || dts.contains doc.doc_type
  let filtOk := match filters with
    | none => true
    | some fs => fs.all (fun kv =>
        match doc.metadata.lookup kv.1 with
        | none => false
        | some v => match kv.2 with
          | FilterVal.one w => v == w
          | FilterVal.many ws => ws.contains v)
  typeOk && filtOk

/-- The result-collection loop of `ARGOVectorStore.search`: for each
(score, idx) pair, `if idx < len(self.metadata)` (true also for the `-1`
padding, since Python compares signed values) the document `metadata[idx]`
is copied, given the score, and kept when it passes the filters.  An
out-of-range access raises `IndexError`, aborting the loop (the caller
catches it). -/
def searchCollect (metadata : List DocMeta) (doc_types : Option (List String))
    (filters : Option (List (String × FilterVal))) :
    List (Int × Int) → Except Unit (List (DocMeta × Int))
  | [] => Except.ok []
  | (score, idx) :: rest =>
    if idx < (metadata.length : Int) then
      match pyGet metadata idx with
      | none => Except.error ()
      | some doc =>
        match searchCollect metadata doc_types filters rest with
        | Except.error e => Except.error e
        | Except.ok rs =>
          if matchesFilters doc doc_types filters then Except.ok ((doc, score) :: rs)
          else Except.ok rs
    else searchCollect metadata doc_types filters rest

/-- `ARGOVectorStore.search(query, k, doc_types, filters)`: embeds the query,
asks the FAISS index for the top `k` candidates, then filters those
candidates; the surrounding `try/except` turns any raised exception into an
empty result list. -/
def ARGOVectorStore.search (encode : String → Vec) (st : ARGOVectorStore)
    (query : String) (k : Nat) (doc_types : Option (List String))
    (filters : Option (List (String × FilterVal))) : List (DocMeta × Int) :=
  let qv := encode query
  let pairs := searchIndex st.index qv k
  match searchCollect st.metadata doc_types filters pairs with
  | Except.ok rs => rs
  | Except.error _ => []

/-- `ARGOVectorStore.add_document(content, metadata, doc_type)`.  New
content appends a metadata record, registers its slot in `id_to_metadata`
and appends the embedding to the index.  Known content (same id) is
updated in place in `metadata`, then the code calls `remove_ids` (which
succeeds, dropping the old vector) followed by `add_with_ids` (which faiss
rejects on a flat index); the raised exception is caught by the method's
`except`, which returns `None` while the mutations already performed
persist.  Returns the updated store and the Python return value. -/
def ARGOVectorStore.add_document (encode : String → Vec) (now : Nat)
    (st : ARGOVectorStore) (content : String) (metadata : List (String × MVal))
    (doc_type : String) : ARGOVectorStore × Option String :=
  let embedding := encode content
  let doc_id := generateId content
  match st.id_to_metadata.lookup doc_id with
  | some idx =>
    let doc : DocMeta :=
      { id := doc_id, content := content, metadata := metadata,
        doc_type := doc_type, created_at := now, updated_at := now }
    let st1 := { st with metadata := st.metadata.set idx doc }
    let st2 := { st1 with index := removeIds st1.index idx }
    match addWithIds st2.index embedding idx with
    | Except.error _ => (st2, none)
    | Except.ok ix => ({ st2 with index := ix }, some doc_id)
  | none =>
    let doc : DocMeta :=
      { id := doc_id, content := content, metadata := metadata,
        doc_type := doc_type, created_at := now, updated_at := now }
    let md := st.metadata ++ [doc]
    let st1 :=
      { st with
        metadata := md
        id_to_metadata := dictInsert st.id_to_metadata doc_id (md.length - 1)
        index := addVec st.index embedding }
    (st1, some doc_id)

/-- `ARGOVectorStore.get_document(doc_id)`: looks the id up in
`id_to_metadata` and returns the record at that slot, or `None` when the id
is unknown. -/
def ARGOVectorStore.get_document (st : ARGOVectorStore) (doc_id : String) :
    Option DocMeta :=
  match st.id_to_metadata.lookup doc_id with
  | some idx => pyGet st.metadata (idx : Int)
  | none => none

/-- `ARGOVectorStore.delete_document(doc_id)`: unknown ids return `False`
without touching the store; otherwise the vector at the id's slot is removed
from the index, the metadata record is removed, and `id_to_metadata` is
rebuilt from the surviving records (a Python dict comprehension, i.e. later
duplicates would overwrite earlier ones). -/
def ARGOVectorStore.delete_document (st : ARGOVectorStore) (doc_id : String) :
    ARGOVectorStore × Bool :=
  match st.id_to_metadata.lookup doc_id with
  | none => (st, false)
  | some idx =>
    let ix := removeIds st.index idx
    let md := st.metadata.eraseIdx idx
    let remap := md.enum.foldl (fun d p => dictInsert d p.2.id p.1) []
    ({ st with index := ix, metadata := md, id_to_metadata := remap }, true)

/-- The fields of `ARGOVectorStore.get_stats()` that are functions of the
store state (the `last_updated` timestamp is wall-clock noise and omitted;
`doc_types` is a Python `set`, whose iteration order is unspecified, so it
is modelled as the deduplicated list). -/
structure Stats where
  total_documents : Nat
  index_size : Nat
  dimension : Nat
  doc_types : List String
deriving Repr, DecidableEq

/-- `ARGOVectorStore.get_stats()`. -/
def ARGOVectorStore.get_stats (st : ARGOVectorStore) : Stats :=
  { total_documents := st.metadata.length,
    index_size := st.index.length,
    dimension := st.dimension,
    doc_types := (st.metadata.map (fun d => d.doc_type)).dedup }

/-- `ARGOVectorStore.clear()`. -/
def ARGOVectorStore.clear (st : ARGOVectorStore) : ARGOVectorStore :=
  { st with index := [], metadata := [], id_to_metadata := [] }

/-- What `_load_index` finds on disk: the two persisted files may be absent
(one or both), present but unreadable (a raised exception while parsing),
or successfully read. -/
inductive LoadOutcome where
  | missing
  | corrupt (msg : String)
  | loaded (index : List Vec) (metadata : List DocMeta)
deriving Repr

/-- The store as `__init__` builds it before `_load_index` runs: a fresh
empty flat index, empty metadata list and empty id mapping. -/
def emptyStore (dim : Nat) : ARGOVectorStore :=
  { dimension := dim, index := [], metadata := [], id_to_metadata := [] }

/-- `ARGOVectorStore._load_index()`: when either file is missing the method
does nothing (the store keeps its freshly initialised empty state); when
reading raises, the `except` handler resets the index, metadata and id
mapping to empty; on success the files are loaded and `id_to_metadata` is
rebuilt from the metadata records in slot order (every record written by
this code has an `id` key). -/
def loadIndex (st : ARGOVectorStore) (files : LoadOutcome) : ARGOVectorStore :=
  match files with
  | LoadOutcome.missing => st
  | LoadOutcome.corrupt _ =>
    { st with index := [], metadata := [], id_to_metadata := [] }
  | LoadOutcome.loaded ix md =>
    { st with
      index := ix
      metadata := md
      id_to_metadata := md.enum.foldl (fun d p => dictInsert d p.2.id p.1)
        st.id_to_metadata }

/-- `ARGOVectorStore.__init__`: construct the empty store, then run
`_load_index` against whatever is on disk. -/
def initStore (dim : Nat) (files : LoadOutcome) : ARGOVectorStore :=
  loadIndex (emptyStore dim) files

/-! ### The intent classifier and response generation
(`src/backend/enhanced_rag_pipeline.py`)

Python string primitives used by that file are modelled structurally over
the character list of the string, so that every definition reduces in the
kernel: `strLower` is `str.lower()` (ASCII inputs), `strContains` is the
`in` substring test, `pySplitWs` is `str.split()` (split on whitespace
runs, dropping empties), `stripChars` is `str.strip(".,!?")`, `pyIsAlpha`
is `str.isalpha()` and `pyTitle` is `str.title()` on space-separated
words. -/

/-- `str.lower()` (the inputs of interest are ASCII). -/
def strLower (s : String) : String := String.mk (s.data.map Char.toLower)

/-- Does `hay` start with `needle`? -/
def headMatches : List Char → List Char → Bool
  | [], _ => true
  | _ :: _, [] => false
  | a :: as, b :: bs => a == b && headMatches as bs

/-- Does `needle` occur in `hay`? -/
def subOccurs : List Char → List Char → Bool
  | n, [] => headMatches n []
  | n, c :: t => headMatches n (c :: t) || subOccurs n t

/-- Python `needle in hay` (substring test; the empty needle is contained in
everything, in Python and here). -/
def strContains (hay needle : String) : Bool := subOccurs needle.data hay.data

/-- Whitespace for Python `str.split()`. -/
def isWs (c : Char) : Bool := c == ' ' || c == '\t' || c == '\n' || c == '\r'

/-- Helper for `pySplitWs`: `acc` holds the current word reversed. -/
def splitWsAux : List Char → List Char → List String
  | acc, [] => if acc.isEmpty then [] else [String.mk acc.reverse]
  | acc, c :: rest =>
    if isWs c then
      if acc.isEmpty then splitWsAux [] rest
      else String.mk acc.reverse :: splitWsAux [] rest
    else splitWsAux (c :: acc) rest

/-- Python `str.split()` with no argument: split on runs of whitespace,
discarding empty pieces. -/
def pySplitWs (s : String) : List String := splitWsAux [] s.data

/-- The characters stripped by `.strip(".,!?")` in the greeting handler. -/
def stripSet : List Char := ['.', ',', '!', '?']

/-- Python `str.strip(".,!?")`: drop those characters from both ends. -/
def stripChars (s : String) : String :=
  String.mk
    (((s.data.dropWhile (fun c => stripSet.contains c)).reverse.dropWhile
      (fun c => stripSet.contains c)).reverse)

/-- Python `str.isalpha()` (ASCII letters; the extracted names are ASCII). -/
def pyIsAlpha (s : String) : Bool :=
  !s.data.isEmpty && s.data.all (fun c => c.isAlpha)

/-- Python `str.title()` for one word: first character upper-cased, the rest
lower-cased. -/
def wordTitle (w : String) : String :=
  match w.data with
  | [] => ""
  | c :: cs => String.mk (c.toUpper :: cs.map Char.toLower)

/-- Python `str.title()` on the space-separated strings this code feeds it
(region names and extracted names). -/
def pyTitle (s : String) : String :=
  String.intercalate " " ((s.splitOn " ").map wordTitle)

/-- The classifier output dict built by
`EnhancedRAGPipeline._analyze_query_intent`. -/
structure QueryIntent where
  needs_database : Bool
  needs_visualization : Bool
  needs_export : Bool
  query_type : String
  region : Option String
  variables_ : List String
  time_range : Option String
deriving Repr, DecidableEq

/-- The database-need keywords of `_analyze_query_intent`. -/
def db_keywords : List String :=
  ["show", "find", "get", "list", "count", "average", "mean", "max", "min",
   "data", "records"]

/-- The visualization keywords of `_analyze_query_intent`. -/
def viz_keywords : List String :=
  ["plot", "chart", "graph", "map", "visualize", "show me", "display",
   "dashboard", "pie", "distribution"]

/-- The region list of `_analyze_query_intent`, scanned in order with the
first match winning (the loop breaks). -/
def known_regions : List String :=
  ["indian ocean", "pacific ocean", "atlantic ocean", "arctic ocean",
   "southern ocean", "bay of bengal", "arabian sea"]

/-- `EnhancedRAGPipeline._analyze_query_intent(user_input)`: lower-case the
input; set `needs_database` when any database keyword occurs; when any
visualization keyword occurs set `needs_visualization` and also
`needs_database` (data is needed to visualize); record the first known
region occurring in the text, title-cased.  `needs_export`, `query_type`,
`variables` (field `variables_`, renamed since `variables` is reserved) and `time_range` keep their initial values — the function never
touches them. -/
def analyze_query_intent (user_input : String) : QueryIntent :=
  let user_lower := strLower user_input
  let needs_db := db_keywords.any (fun kw => strContains user_lower kw)
  let has_viz := viz_keywords.any (fun kw => strContains user_lower kw)
  let region := (known_regions.find? (fun r => strContains user_lower r)).map pyTitle
  { needs_database := needs_db || has_viz
    needs_visualization := has_viz
    needs_export := false
    query_type := "general"
    region := region
    variables_ := []
    time_range := none }

/-- The mutable state an `EnhancedRAGPipeline` object carries between calls
(the parts a classifier could conceivably read): the conversation history
and the user profile. -/
structure PipelineState where
  conversation_history : List String
  user_profile_name : Option String
deriving Repr, DecidableEq

/-- The method `EnhancedRAGPipeline._analyze_query_intent` as called on a
pipeline object: its body reads nothing from `self` — only `user_input` —
so the embedding passes the object state through unused. -/
def pipelineAnalyzeQueryIntent (_self : PipelineState) (user_input : String) :
    QueryIntent :=
  analyze_query_intent user_input

/-- The outcome of the external Groq LLM step inside
`_generate_simple_response`: the API key may be unset (the guarded block is
skipped), the import or the chat-completion call may raise (caught by the
`except`, falling through to the template), or the call may succeed with a
response text. -/
inductive GroqOutcome where
  | noKey
  | failure (msg : String)
  | success (text : String)
deriving Repr, DecidableEq

/-- One numeric column of the retrieved DataFrame, as the template reads it:
its name, whether `notna().any()` holds, and its mean/min/max.  The source
values are floats; the claims depend only on which response lines appear,
so the statistics are carried as integers and `"%.2f"` formatting is
modelled by decimal rendering. -/
structure NumCol where
  name : String
  hasValues : Bool
  meanVal : Int
  minVal : Int
  maxVal : Int
deriving Repr, DecidableEq

/-- The slice of a pandas DataFrame that `_generate_simple_response` reads:
the row count, the numeric columns in order, and the latitude/longitude
ranges when both columns are present. -/
structure DataFrame where
  nrows : Nat
  numeric_cols : List NumCol
  latlon : Option (Int × Int × Int × Int)
deriving Repr, DecidableEq

/-- `db_data is not None and not db_data.empty`. -/
def dbNonEmpty : Option DataFrame → Bool
  | none => false
  | some df => df.nrows != 0

/-- The greeting keywords of `_generate_simple_response`. -/
def greeting_words : List String :=
  ["hello", "hi", "hey", "good morning", "good afternoon", "good evening",
   "greetings"]

/-- The thank-you keywords of `_generate_simple_response`. -/
def thanks_words : List String := ["thank", "thanks", "appreciate", "grateful"]

/-- The name-introduction patterns scanned by the greeting handler. -/
def name_patterns : List String :=
  ["i am", "i\u0027m", "my name is", "call me", "this is"]

/-- The inner word scan of the greeting handler: find the first position
whose word (lower-cased) belongs to the pattern's word list and which has a
following word; if that following word, stripped of `.,!?`, is alphabetic
and longer than 2 characters, the title-cased name is taken, otherwise the
scan continues. -/
def scanWordsAux (patWords : List String) : List String → Option String
  | w :: next :: rest =>
    if patWords.contains (strLower w) then
      let potential := stripChars next
      if pyIsAlpha potential && potential.length > 2 then some (pyTitle potential)
      else scanWordsAux patWords (next :: rest)
    else scanWordsAux patWords (next :: rest)
  | _ => none

/-- The name-extraction loop of the greeting handler: each pattern occurring
in the lower-cased input re-runs the word scan, a successful scan
overwriting any name found by an earlier pattern (the source only breaks
out of the inner loop). -/
def extractName (user_input user_lower : String) : Option String :=
  name_patterns.foldl
    (fun acc pat =>
      if strContains user_lower pat then
        match scanWordsAux (pySplitWs pat) (pySplitWs user_input) with
        | some n => some n
        | none => acc
      else acc)
    none

/-- The greeting response of `_generate_simple_response`, with the optional
extracted name spliced into the salutation. -/
def greetingResponse (name : Option String) : String :=
  (match name with
   | some n => "Hello, " ++ n
   | none => "Hello") ++
  "! 👋 I\u0027m NeptuneAI, your comprehensive ocean data assistant.\n\n" ++
  "🌊 I can help you with:\n" ++
  "• Ocean temperature, salinity, and pressure data\n" ++
  "• Geographic maps and visualizations\n" ++
  "• Profiler deployment information\n" ++
  "• Sea level trends and climate analysis\n" ++
  "• Regional ocean comparisons\n\n" ++
  "What would you like to explore today?"

/-- One `📊 **Col**: Average … (range: … to …)` statistics line of the
template response. -/
def fmtStat (c : NumCol) : String :=
  "📊 **" ++ pyTitle c.name ++ "**: Average " ++ toString c.meanVal ++
  " (range: " ++ toString c.minVal ++ " to " ++ toString c.maxVal ++ ")"

/-- The geographic-coverage line of the template response. -/
def fmtGeo (p : Int × Int × Int × Int) : String :=
  "\n\n🗺️ **Geographic Coverage**: Latitude " ++ toString p.1 ++ "° to " ++
  toString p.2.1 ++ "°, Longitude " ++ toString p.2.2.1 ++ "° to " ++
  toString p.2.2.2 ++ "°"

/-- The `response_parts` lines appended when the database search found
nothing but the intent asked for data. -/
def noDataParts : List String :=
  ["🔍 I searched the database but couldn\u0027t find any matching records for your query.",
   "\n\nTry:",
   "• Specifying a different ocean region (e.g., Indian Ocean, Pacific Ocean)",
   "• Asking about general ocean properties",
   "• Checking available regions with \u0027What regions do you have data for?\u0027"]

/-- The default `response_parts` used when nothing else was added. -/
def defaultParts : List String :=
  ["🌊 Hello! I\u0027m NeptuneAI, your ocean data expert.",
   "\n\nI can help you with:",
   "• 🌡️ Ocean temperature and salinity analysis",
   "• 🗺️ Geographic distribution maps",
   "• 📊 Statistical trends and patterns",
   "• 🔬 Profiler deployment information",
   "\n\nWhat would you like to know about our oceans?"]

/-- Python `" ".join(parts)`. -/
def pyJoin (sep : String) : List String → String
  | [] => ""
  | [x] => x
  | x :: y :: rest => x ++ sep ++ pyJoin sep (y :: rest)

/-- The `response_parts` list assembled by the template branch (STEP 4) of
`_generate_simple_response`: data summary with region, up to three
statistics lines over the first three numeric columns that have values, and
the geographic line when latitude/longitude are present; otherwise the
no-data suggestions when the intent wanted the database; then the
visualization offer; and the default greeting lines when nothing was
added. -/
def template_parts (intent : QueryIntent) (db_data : Option DataFrame) :
    List String :=
  let base : List String :=
    match db_data with
    | some df =>
      if df.nrows != 0 then
        let part1 := "🔍 I found " ++ toString df.nrows ++
          " relevant oceanographic records"
        let part2 := match intent.region with
          | some r => "from the " ++ r ++ "."
          | none => "from the database."
        let stats := ((df.numeric_cols.take 3).filter (fun c => c.hasValues)).map fmtStat
        let statParts := if stats.isEmpty then []
          else ["\n\n**Key Statistics:**", String.intercalate "\n" stats]
        let geoParts := match df.latlon with
          | some p => [fmtGeo p]
          | none => []
        [part1, part2] ++ statParts ++ geoParts
      else if intent.needs_database then noDataParts else []
    | none => if intent.needs_database then noDataParts else []
  let withViz := base ++
    (if intent.needs_visualization && dbNonEmpty db_data then
      ["\n\n📊 I\u0027ve also generated a visualization to help you explore this data!"]
     else [])
  if withViz.isEmpty then defaultParts else withViz

/-- The template (fallback) response: `" ".join(response_parts)`. -/
def template_response (intent : QueryIntent) (db_data : Option DataFrame) :
    String :=
  pyJoin " " (template_parts intent db_data)

/-- `EnhancedRAGPipeline._generate_simple_response`: greetings and thanks are
answered from canned text before the LLM is consulted; otherwise a
successful Groq call returns the model text (plus a visualization note when
applicable), while a missing API key or a raised exception falls through to
the template response.  The function always returns a string — the `except`
around the Groq block prevents an LLM failure from propagating. -/
def generate_simple_response (groq : GroqOutcome) (user_input : String)
    (intent : QueryIntent) (db_data : Option DataFrame) : String :=
  let user_lower := strLower user_input
  if greeting_words.any (fun g => strContains user_lower g) then
    greetingResponse (extractName user_input user_lower)
  else if thanks_words.any (fun t => strContains user_lower t) then
    "You\u0027re very welcome! 😊 I\u0027m always here to help you explore ocean science. Feel free to ask anything else!"
  else
    match groq with
    | GroqOutcome.success text =>
      if intent.needs_visualization && dbNonEmpty db_data then
        text ++ "\n\n📊 I\u0027ve also generated a visualization to help you explore this data visually!"
      else text
    | GroqOutcome.noKey => template_response intent db_data
    | GroqOutcome.failure _ => template_response intent db_data

/-! ### Concrete scenarios

A small deterministic encoder (standing in for the sentence-transformer
model, which the operations receive as a parameter) and the stores the
claims are evaluated on. -/

/-- Embeddings the demo encoder assigns to the scenario contents and
queries. -/
def encTable : List (String × Vec) :=
  [("alpha", [3, 4]),
   ("d1", [1, 0]), ("d2", [2, 0]), ("d3", [3, 0]), ("d4", [4, 0]),
   ("d5", [5, 0]),
   ("pa", [9, 0]), ("pb", [8, 0]), ("sc", [1, 0]),
   ("q", [1, 0])]

/-- The concrete encoder used by all scenarios. -/
def demoEncode (s : String) : Vec := (encTable.lookup s).getD [0, 0]

/-- The first metadata dict of the duplicate-insertion scenario. -/
def metaA : List (String × MVal) := [("tag", MVal.str "A")]

/-- The second metadata dict of the duplicate-insertion scenario. -/
def metaB : List (String × MVal) := [("tag", MVal.str "B")]

/-- Step 1 of the duplicate-insertion scenario: add content `"alpha"` with
metadata `metaA` to a fresh store. -/
def dupAdd1 : ARGOVectorStore × Option String :=
  ARGOVectorStore.add_document demoEncode 0 (emptyStore 384) "alpha" metaA
    "profile"

/-- Step 2: add the identical content `"alpha"` again with metadata
`metaB`. -/
def dupAdd2 : ARGOVectorStore × Option String :=
  ARGOVectorStore.add_document demoEncode 1 dupAdd1.1 "alpha" metaB "profile"

/-- Search the one-document store with `k = 2` (more than the store
holds). -/
def oneDocSearch : List (DocMeta × Int) :=
  ARGOVectorStore.search demoEncode dupAdd1.1 "q" 2 none none

/-- Add a profile document with empty metadata (helper for the five-document
scenario). -/
def addPlain (st : ARGOVectorStore) (content : String) (now : Nat) :
    ARGOVectorStore :=
  (ARGOVectorStore.add_document demoEncode now st content [] "profile").1

/-- The five-document store `d1 … d5` of the delete scenario. -/
def fiveDocStore : ARGOVectorStore :=
  addPlain (addPlain (addPlain (addPlain (addPlain (emptyStore 2) "d1" 0)
    "d2" 1) "d3" 2) "d4" 3) "d5" 4

/-- Deleting the middle document `d3` (slot 2 of 5). -/
def c4Deleted : ARGOVectorStore × Bool :=
  fiveDocStore.delete_document (generateId "d3")

/-- Searching the post-delete store with `k = 5`. -/
def c4Results : List (DocMeta × Int) :=
  ARGOVectorStore.search demoEncode c4Deleted.1 "q" 5 none none

/-- Metadata of the summary document in the filter scenario. -/
def sumMeta : List (String × MVal) := [("region", MVal.str "bay")]

/-- The filter scenario store: two profile documents `pa`, `pb` whose
embeddings score far above the summary document `sc`. -/
def c5Store : ARGOVectorStore :=
  (ARGOVectorStore.add_document demoEncode 2
    (ARGOVectorStore.add_document demoEncode 1
      (ARGOVectorStore.add_document demoEncode 0 (emptyStore 2) "pa" []
        "profile").1
      "pb" [] "profile").1
    "sc" sumMeta "summary").1

/-- The metadata filter of the filter scenario. -/
def c5Filters : Option (List (String × FilterVal)) :=
  some [("region", FilterVal.one (MVal.str "bay"))]

/-- Search with `k = 2`, restricted to summaries about region `bay`: the two
top candidates are both profiles, so everything is filtered out. -/
def c5Results : List (DocMeta × Int) :=
  ARGOVectorStore.search demoEncode c5Store "q" 2 (some ["summary"]) c5Filters


/-! ### Theorems -/

theorem pyJoin_length_le (sep x : String) (l : List String) :
    x.length ≤ (pyJoin sep (x :: l)).length := by
  cases l with
  | nil => exact Nat.le_refl _
  | cons y rest =>
    show x.length ≤ (x ++ sep ++ pyJoin sep (y :: rest)).length
    rw [String.length_append, String.length_append]
    omega

theorem template_parts_head_pos (intent : QueryIntent) (db : Option DataFrame) :
    0 < ((template_parts intent db).headD "").length := by
  rcases db with _ | df
  · simp only [template_parts, dbNonEmpty, Bool.and_false]
    by_cases h : intent.needs_database = true
    · simp only [h]
      decide
    · simp only [h]
      decide
  · by_cases h0 : df.nrows = 0
    · simp only [template_parts, dbNonEmpty, h0]
      by_cases h : intent.needs_database = true
      · simp [h]
        decide
      · simp [h]
        decide
    · simp only [template_parts, dbNonEmpty]
      have hb : (df.nrows != 0) = true := by
        simp [bne, h0]
      simp only [hb]
      simp only [if_true, List.cons_append, List.isEmpty_cons, Bool.false_eq_true,
        if_false, List.headD_cons]
      rw [String.length_append, String.length_append]
      have hpos : 0 < ("🔍 I found " : String).length := by decide
      omega


theorem template_response_ne_empty (intent : QueryIntent) (db : Option DataFrame) :
    template_response intent db ≠ "" := by
  have hhead := template_parts_head_pos intent db
  unfold template_response
  cases hp : template_parts intent db with
  | nil => rw [hp] at hhead; simp at hhead
  | cons x l =>
    rw [hp] at hhead
    simp only [List.headD_cons] at hhead
    have hle := pyJoin_length_le " " x l
    intro hcontra
    rw [hcontra] at hle
    have hz : ("" : String).length = 0 := rfl
    omega

/-- C1: the spec invariant `total_documents = index_size` after every
add/delete sequence is violated by the code: re-adding existing content
updates the metadata record in place, removes the old vector, and then
calls `add_with_ids`, which faiss rejects on `IndexFlatIP`; the caught
exception leaves the index one vector short.  After `add("alpha", metaA)`
followed by `add("alpha", metaB)`, `get_stats` reports 1 document but an
index of size 0. -/
theorem c1_stats_desync_on_duplicate_add :
    dupAdd1.1.get_stats.total_documents = 1 ∧
    dupAdd1.1.get_stats.index_size = 1 ∧
    dupAdd2.1.get_stats.total_documents = 1 ∧
    dupAdd2.1.get_stats.index_size = 0 := by decide

/-- C2: re-inserting identical content does leave exactly one record whose
metadata is the second dict, with the metadata slot count unchanged — but
the second call returns `None` rather than the id (faiss raises on
`add_with_ids`), and the content's vector is lost from the index. -/
theorem c2_reinsertion_updates_in_place_but_returns_none :
    dupAdd1.2 = some (generateId "alpha") ∧
    dupAdd2.2 = none ∧
    dupAdd2.1.metadata.map (fun d => (d.content, d.metadata)) = [("alpha", metaB)] ∧
    dupAdd2.1.metadata.length = dupAdd1.1.metadata.length ∧
    dupAdd2.1.index.length ≠ dupAdd1.1.index.length := by decide

/-- C3: `search(q, k)` with `n < k` does NOT return exactly `n` results: the
faiss padding index `-1` passes the `idx < len(metadata)` guard (Python
compares signed) and `metadata[-1]` wraps to the last record, so a
one-document store searched with `k = 2` yields two copies of that
document.  Only the empty store returns `[]` (the wrap-around raises
`IndexError` there, which the `except` turns into an empty list). -/
theorem c3_search_pads_with_last_document :
    oneDocSearch.length = 2 ∧
    oneDocSearch.map (fun r => r.1.id) = [generateId "alpha", generateId "alpha"] ∧
    ARGOVectorStore.search demoEncode (emptyStore 384) "q" 3 none none = [] := by
  decide

/-- C4: deleting the middle document of a five-document store does remap the
surviving slots consistently and the deleted id never reappears, but the
subsequent `search(k = 5)` returns 5 results, the last surviving document
appearing twice (the `-1` padding duplicates `metadata[-1]`), not the 4 the
claim states. -/
theorem c4_delete_middle_then_search :
    c4Deleted.2 = true ∧
    c4Deleted.1.metadata.map (fun d => d.id) =
      [generateId "d1", generateId "d2", generateId "d4", generateId "d5"] ∧
    c4Results.length = 5 ∧
    (c4Results.map fun r => r.1.id).count (generateId "d3") = 0 ∧
    (c4Results.map fun r => r.1.id).count (generateId "d5") = 2 := by decide

/-- C5: filtering happens after the nearest-neighbour search, on the top-`k`
candidates only: in `c5Store` the two best-scoring candidates are profiles,
so a summary-filtered search with `k = 2` returns 0 results even though a
matching summary document exists in the store; nothing over-fetches to
compensate. -/
theorem c5_filters_applied_after_topk :
    c5Results = [] ∧
    c5Results.length < 2 ∧
    (c5Store.metadata.filter fun d =>
      matchesFilters d (some ["summary"]) c5Filters).length = 1 := by decide

/-- C6: looking up an unknown id returns `None` from `get_document` and
`False` from `delete_document`, with the store unchanged and no exception
(both operations are total). -/
theorem c6_lookup_miss (st : ARGOVectorStore) (doc_id : String)
    (h : st.id_to_metadata.lookup doc_id = none) :
    st.get_document doc_id = none ∧ st.delete_document doc_id = (st, false) := by
  unfold ARGOVectorStore.get_document ARGOVectorStore.delete_document
  rw [h]
  exact ⟨rfl, rfl⟩

/-- Witness for C6: the id `"zzz"` is unknown to the one-document store. -/
theorem c6_lookup_miss_witness :
    dupAdd1.1.get_document "zzz" = none ∧
    dupAdd1.1.delete_document "zzz" = (dupAdd1.1, false) :=
  c6_lookup_miss dupAdd1.1 "zzz" (by decide)

/-- C7: `_load_index` run at startup over missing or corrupt persisted files
leaves the constructed store empty (empty index, empty metadata, empty id
mapping) instead of raising. -/
theorem c7_load_failure_gives_empty_store (dim : Nat) (files : LoadOutcome)
    (h : files = LoadOutcome.missing ∨ ∃ msg, files = LoadOutcome.corrupt msg) :
    initStore dim files = emptyStore dim := by
  rcases h with h | ⟨msg, h⟩ <;> subst h <;> rfl

/-- Witness for C7: loading over a corrupt metadata file yields the empty
store. -/
theorem c7_load_failure_gives_empty_store_witness :
    initStore 384 (LoadOutcome.corrupt "bad json") = emptyStore 384 :=
  c7_load_failure_gives_empty_store 384 (LoadOutcome.corrupt "bad json")
    (Or.inr ⟨"bad json", rfl⟩)

/-- C8: the intent classifier is a pure, deterministic function of the
input text: its result is independent of the pipeline object's state
(conversation history, user profile), and two calls on the same string give
identical output — the same flags, region and variable list. -/
theorem c8_intent_classifier_pure (s1 s2 : PipelineState) (text : String) :
    pipelineAnalyzeQueryIntent s1 text = pipelineAnalyzeQueryIntent s2 text ∧
    pipelineAnalyzeQueryIntent s1 text = pipelineAnalyzeQueryIntent s1 text :=
  ⟨rfl, rfl⟩

/-- C9: when the Groq LLM call raises, `_generate_simple_response` (for any
input that reaches the LLM step, i.e. is not answered by the canned
greeting/thanks branches) returns exactly the template response assembled
from the intent and the database data — a non-empty string — so no failure
propagates to the user. -/
theorem c9_llm_failure_falls_back_to_template (msg user_input : String)
    (intent : QueryIntent) (db_data : Option DataFrame)
    (hg : (greeting_words.any fun g => strContains (strLower user_input) g) = false)
    (ht : (thanks_words.any fun t => strContains (strLower user_input) t) = false) :
    generate_simple_response (GroqOutcome.failure msg) user_input intent db_data
      = template_response intent db_data ∧
    template_response intent db_data ≠ "" := by
  refine ⟨?_, template_response_ne_empty intent db_data⟩
  simp only [generate_simple_response, hg, ht, Bool.false_eq_true, if_false]

/-- Witness for C9 at a database-style query with no data and a failing
LLM call. -/
theorem c9_llm_failure_falls_back_to_template_witness :
    generate_simple_response (GroqOutcome.failure "boom") "show temperature data"
        (analyze_query_intent "show temperature data") none
      = template_response (analyze_query_intent "show temperature data") none ∧
    template_response (analyze_query_intent "show temperature data") none ≠ "" :=
  c9_llm_failure_falls_back_to_template "boom" "show temperature data"
    (analyze_query_intent "show temperature data") none (by decide) (by decide)

/-- C10: whenever the classifier sets `needs_visualization`, it also sets
`needs_database` — the visualization branch assigns both flags. -/
theorem c10_viz_implies_database (text : String)
    (h : (analyze_query_intent text).needs_visualization = true) :
    (analyze_query_intent text).needs_database = true := by
  have hdb : (analyze_query_intent text).needs_database
      = ((db_keywords.any fun kw => strContains (strLower text) kw)
         || (viz_keywords.any fun kw => strContains (strLower text) kw)) := rfl
  have hviz : (analyze_query_intent text).needs_visualization
      = (viz_keywords.any fun kw => strContains (strLower text) kw) := rfl
  rw [hviz] at h
  rw [hdb, h, Bool.or_true]

/-- Witness for C10: `"plot temperature"` triggers the visualization flag
and therefore the database flag. -/
theorem c10_viz_implies_database_witness :
    (analyze_query_intent "plot temperature").needs_visualization = true ∧
    (analyze_query_intent "plot temperature").needs_database = true :=
  ⟨by decide, c10_viz_implies_database "plot temperature" (by decide)⟩

end NeptuneAI
